import Mathlib

/-!
Verification development for the llmsnap repository.

This file shallowly embeds the parts of the repository involved in the
claims under examination:

* `proxy/metrics_monitor.go` — the `metricsMonitor` ring (`addMetrics`),
  the handler wrapper (`wrapHandler`), the SSE tail scan
  (`processStreamingResponse`), the metric parser (`parseMetrics`) and the
  tee writer (`responseBodyCopier.Write`);
* `config` (ModelConfig.UnmarshalYAML) — the sleep/wake endpoint
  validation chain;
* the TTL (`UnloadAfter`) monitor of `proxy/process.go`, quoted verbatim
  in the repository's design documents.

Machine integers are modelled as `Int`/`Nat`; Go `float64` values carried
by the metrics pipeline are modelled as `Rat` (the claims concern data
flow and sentinel values, not rounding); wall-clock durations are passed
in explicitly as parameters.
-/

/-- JSON values as produced by the `gjson` parser used in
`proxy/metrics_monitor.go`.  Numbers are modelled as rationals. -/
inductive JValue where
  | null
  | bool (b : Bool)
  | num (q : ℚ)
  | str (s : String)
  | arr (elems : List JValue)
  | obj (fields : List (String × JValue))

/-- Field lookup inside a JSON object, first match wins (gjson object
member access for a plain key). -/
def jlookup (k : String) : List (String × JValue) → Option JValue
  | [] => none
  | (k', v) :: rest => if k' = k then some v else jlookup k rest

/-- `gjson.Result.Get` for a plain key: a `gjson.Result` is modelled as
`Option JValue`, `none` standing for a non-existent result
(`Result.Exists() == false`).  `Get` yields an existing result only on an
object that has the field. -/
def jget (r : Option JValue) (k : String) : Option JValue :=
  match r with
  | some (JValue.obj fields) => jlookup k fields
  | _ => none

/-- Go truncation of a rational float toward zero (the `int(...)`
conversion).  `q.num.tdiv q.den` is exact truncated division since `Rat`
is stored in lowest terms with a positive denominator. -/
def goTrunc (q : ℚ) : ℤ := q.num.tdiv (q.den : ℤ)

/-- `gjson.Result.Int()`: a non-existent result and non-numeric values
yield 0; numbers truncate toward zero; booleans map to 0/1.  (String
coercion of numeric strings is not modelled; no claim involves it.) -/
def goInt (r : Option JValue) : ℤ :=
  match r with
  | some (JValue.num q) => goTrunc q
  | some (JValue.bool b) => if b then 1 else 0
  | _ => 0

/-- `gjson.Result.Float()`: a non-existent result and non-numeric values
yield 0; booleans map to 0/1. -/
def goFloat (r : Option JValue) : ℚ :=
  match r with
  | some (JValue.num q) => q
  | some (JValue.bool b) => if b then 1 else 0
  | _ => 0

/-- `TokenMetrics` from `proxy/metrics_monitor.go` (the wall-clock
`Timestamp` field is not modelled; every other field is carried).  `ID`
is assigned by `metricsMonitor.addMetrics`. -/
structure TokenMetrics where
  id : ℕ
  model : String
  cachedTokens : ℤ
  inputTokens : ℤ
  outputTokens : ℤ
  promptPerSecond : ℚ
  tokensPerSecond : ℚ
  durationMs : ℤ
deriving DecidableEq, Repr

/-- The Go zero value of `TokenMetrics` (handy for building inputs). -/
def TokenMetrics.zero : TokenMetrics :=
  { id := 0, model := "", cachedTokens := 0, inputTokens := 0
    outputTokens := 0, promptPerSecond := 0, tokensPerSecond := 0, durationMs := 0 }

/-- `parseMetrics` from `proxy/metrics_monitor.go` lines 205–267.
`elapsedMs` stands for `int(time.Since(start).Milliseconds())` computed at
line 214.  The Go function's error result is always `nil`, so it is
dropped here.  The `let` chain mirrors the successive assignments of the
Go function: defaults, then the `usage` block, then the `timings` block
(which overwrites token counts, rates and duration), then the computed
tokens-per-second fallback. -/
def parseMetrics (modelID : String) (elapsedMs : ℤ) (usage timings : Option JValue) :
    TokenMetrics :=
  -- default values
  let cached0 : ℤ := -1
  let out0 : ℤ := 0
  let inp0 : ℤ := 0
  let tps0 : ℚ := -1
  let pps0 : ℚ := -1
  let dur0 : ℤ := elapsedMs
  -- usage block (lines 216–235)
  let inp1 : ℤ :=
    if usage.isSome then
      if (jget usage "prompt_tokens").isSome then goInt (jget usage "prompt_tokens")
      else if (jget usage "input_tokens").isSome then goInt (jget usage "input_tokens")
      else inp0
    else inp0
  let out1 : ℤ :=
    if usage.isSome then
      if (jget usage "completion_tokens").isSome then goInt (jget usage "completion_tokens")
      else if (jget usage "output_tokens").isSome then goInt (jget usage "output_tokens")
      else out0
    else out0
  let cached1 : ℤ :=
    if usage.isSome then
      if (jget usage "cache_read_input_tokens").isSome then
        goInt (jget usage "cache_read_input_tokens")
      else cached0
    else cached0
  -- timings block (lines 238–248)
  let inp2 : ℤ := if timings.isSome then goInt (jget timings "prompt_n") else inp1
  let out2 : ℤ := if timings.isSome then goInt (jget timings "predicted_n") else out1
  let pps2 : ℚ := if timings.isSome then goFloat (jget timings "prompt_per_second") else pps0
  let tps2 : ℚ :=
    if timings.isSome then goFloat (jget timings "predicted_per_second") else tps0
  let dur2 : ℤ :=
    if timings.isSome then
      goTrunc (goFloat (jget timings "prompt_ms") + goFloat (jget timings "predicted_ms"))
    else dur0
  let cached2 : ℤ :=
    if timings.isSome then
      if (jget timings "cache_n").isSome then goInt (jget timings "cache_n") else cached1
    else cached1
  -- computed tokens-per-second when the backend does not provide it (lines 253–255)
  let tps3 : ℚ :=
    if tps2 = -1 ∧ 0 < out2 ∧ 0 < dur2 then (out2 : ℚ) / ((dur2 : ℚ) / 1000) else tps2
  { id := 0, model := modelID, cachedTokens := cached2, inputTokens := inp2,
    outputTokens := out2, promptPerSecond := pps2, tokensPerSecond := tps3,
    durationMs := dur2 }

/-- `metricsMonitor` state from `proxy/metrics_monitor.go` (the mutex and
logger are not part of the data model; the event emission of `addMetrics`
is not modelled). -/
structure MetricsMonitor where
  metrics : List TokenMetrics
  maxMetrics : ℕ
  nextID : ℕ

/-- `newMetricsMonitor`: empty ring, `nextID` at its zero value. -/
def newMetricsMonitor (maxMetrics : ℕ) : MetricsMonitor :=
  { metrics := [], maxMetrics := maxMetrics, nextID := 0 }

/-- `metricsMonitor.addMetrics` (lines 59–70): assign the next ID, append,
and when the length exceeds `maxMetrics` keep the suffix
`metrics[len(metrics)-maxMetrics:]`. -/
def addMetrics (mp : MetricsMonitor) (metric : TokenMetrics) : MetricsMonitor :=
  let m := { metric with id := mp.nextID }
  let ms := mp.metrics ++ [m]
  { metrics := if mp.maxMetrics < ms.length then ms.drop (ms.length - mp.maxMetrics) else ms,
    maxMetrics := mp.maxMetrics,
    nextID := mp.nextID + 1 }

/-- A sequence of `addMetrics` calls, oldest first. -/
def runAdds (mp : MetricsMonitor) (inserts : List TokenMetrics) : MetricsMonitor :=
  inserts.foldl addMetrics mp

/-- The records a sequence of inserts produces before any eviction:
record `i` of the sequence carries ID `start + i`. -/
def assignIDs (start : ℕ) : List TokenMetrics → List TokenMetrics
  | [] => []
  | m :: rest => { m with id := start } :: assignIDs (start + 1) rest

/-- One line of a captured SSE body, as the backward scan of
`processStreamingResponse` observes it after `bytes.TrimSpace`.  The raw
byte decomposition into lines and the `gjson.ValidBytes` test are
delegated to this observation type: `blank` trims to nothing; `other` is
a non-empty line that does not carry the `"data:"` marker; `dataLine`
carries the trimmed payload that follows the marker. -/
inductive SSEPayload where
  | empty
  | done
  | invalid (s : String)
  | json (v : JValue)

inductive SSELine where
  | blank
  | other (s : String)
  | dataLine (p : SSEPayload)

/-- The inner loop of `processStreamingResponse` (lines 153–195), applied
to the remaining lines in back-to-front order.  `found` is the
`foundValidJSON` flag.  Lines that are blank, that do not carry the
`"data:"` marker, whose payload is empty or `[DONE]`, or whose payload is
not valid JSON are skipped; a valid-JSON payload sets the flag and, when
it has a `usage` or `timings` member, ends the scan with its parse. -/
def scanLines (modelID : String) (elapsedMs : ℤ) :
    List SSELine → Bool → Except String TokenMetrics
  | [], found =>
      if found then Except.ok (parseMetrics modelID elapsedMs none none)
      else Except.error "no valid JSON data found in stream"
  | line :: rest, found =>
      match line with
      | SSELine.blank => scanLines modelID elapsedMs rest found
      | SSELine.other _ => scanLines modelID elapsedMs rest found
      | SSELine.dataLine SSEPayload.empty => scanLines modelID elapsedMs rest found
      | SSELine.dataLine SSEPayload.done => scanLines modelID elapsedMs rest found
      | SSELine.dataLine (SSEPayload.invalid _) => scanLines modelID elapsedMs rest found
      | SSELine.dataLine (SSEPayload.json v) =>
          if (jget (some v) "usage").isSome || (jget (some v) "timings").isSome then
            Except.ok
              (parseMetrics modelID elapsedMs (jget (some v) "usage") (jget (some v) "timings"))
          else scanLines modelID elapsedMs rest true

/-- `processStreamingResponse` (lines 146–203): iterate backwards through
the body's lines.  The Go loop walks the byte buffer from the end with
`bytes.LastIndexByte`; visiting the trimmed lines back to front is the
same traversal. -/
def processStreamingResponse (modelID : String) (elapsedMs : ℤ) (lines : List SSELine) :
    Except String TokenMetrics :=
  scanLines modelID elapsedMs lines.reverse false

/-- A line whose payload is valid JSON with a `usage` or `timings`
member — the line the backward scan stops at. -/
def isMetricDataLine : SSELine → Bool
  | SSELine.dataLine (SSEPayload.json v) =>
      (jget (some v) "usage").isSome || (jget (some v) "timings").isSome
  | _ => false

/-- A line whose payload is valid JSON (sets `foundValidJSON`). -/
def isJsonDataLine : SSELine → Bool
  | SSELine.dataLine (SSEPayload.json _) => true
  | _ => false

/-- The metric parsed from a metric-bearing data line. -/
def metricOfLine (modelID : String) (elapsedMs : ℤ) : SSELine → TokenMetrics
  | SSELine.dataLine (SSEPayload.json v) =>
      parseMetrics modelID elapsedMs (jget (some v) "usage") (jget (some v) "timings")
  | _ => parseMetrics modelID elapsedMs none none

/-- Does `s` begin with the characters of `pat`? (byte-for-byte, as
`strings.Contains` compares). -/
def leadsWith : List Char → List Char → Bool
  | _, [] => true
  | [], _ :: _ => false
  | c :: cs, p :: ps => c == p && leadsWith cs ps

/-- Substring search over character lists. -/
def containsSub : List Char → List Char → Bool
  | [], pat => pat.isEmpty
  | s@(_ :: rest), pat => leadsWith s pat || containsSub rest pat

/-- `strings.Contains` on strings. -/
def goStringsContains (s sub : String) : Bool :=
  containsSub s.toList sub.toList

/-- The observations `wrapHandler` makes of the captured response body:
emptiness (line 114), the line decomposition used by the streaming branch,
and the whole-body `gjson` parse used by the JSON branch (`none` when
`gjson.ValidBytes` fails). -/
structure Body where
  isEmpty : Bool
  lines : List SSELine
  wholeJson : Option JValue

/-- What the upstream handler left in the `responseBodyCopier`: the
status recorded by gin, the Content-Type header, and the captured body. -/
structure UpstreamResponse where
  status : ℕ
  contentType : String
  body : Body

/-- The externally visible outcome of one `wrapHandler` call: the error
returned to the caller, the metric recorded via `addMetrics` (if any),
and whether a warning was logged. -/
structure WrapResult where
  err : Option String
  recorded : Option TokenMetrics
  warned : Bool

/-- `metricsMonitor.wrapHandler` (lines 92–144).  `nextErr` is the error
result of the wrapped `next` handler; `resp` is what `next` wrote into
the recorder.  On a `next` error it is returned as is; afterwards the
function only logs: non-200 status and empty bodies are skipped with a
warning, the streaming branch records the scanned metric or warns, the
JSON branch records the parsed metric when the body is valid JSON and
warns otherwise.  (`parseMetrics` never fails, so its error branch at
line 133 is dead and the JSON branch always records.) -/
def wrapHandler (modelID : String) (elapsedMs : ℤ) (nextErr : Option String)
    (resp : UpstreamResponse) : WrapResult :=
  match nextErr with
  | some e => { err := some e, recorded := none, warned := false }
  | none =>
    if resp.status ≠ 200 then { err := none, recorded := none, warned := true }
    else if resp.body.isEmpty then { err := none, recorded := none, warned := true }
    else if goStringsContains resp.contentType "text/event-stream" then
      match processStreamingResponse modelID elapsedMs resp.body.lines with
      | Except.error _ => { err := none, recorded := none, warned := true }
      | Except.ok tm => { err := none, recorded := some tm, warned := false }
    else
      match resp.body.wholeJson with
      | some v =>
          { err := none,
            recorded := some (parseMetrics modelID elapsedMs
              (jget (some v) "usage") (jget (some v) "timings")),
            warned := false }
      | none => { err := none, recorded := none, warned := true }

/-- `responseBodyCopier` (lines 271–296): the bytes forwarded to the
underlying `gin.ResponseWriter`, the bytes captured in the buffer, and
whether the first-write timestamp has been set. -/
structure BodyCopier where
  forwarded : List Char
  captured : List Char
  startSet : Bool

/-- `newBodyCopier`: empty buffer, no first write yet. -/
def newBodyCopier : BodyCopier :=
  { forwarded := [], captured := [], startSet := false }

/-- `responseBodyCopier.Write` (lines 289–296): one `io.MultiWriter`
write appends the same bytes to the response and to the capture buffer,
setting the first-write timestamp if unset. -/
def copierWrite (w : BodyCopier) (b : List Char) : BodyCopier :=
  { forwarded := w.forwarded ++ b, captured := w.captured ++ b, startSet := true }

/-- A sequence of writes through the tee writer. -/
def copierWrites (w : BodyCopier) (bs : List (List Char)) : BodyCopier :=
  bs.foldl copierWrite w

/-- Process lifecycle states (backend codemap: Stopped, Starting, Ready,
Stopping, Shutdown, SleepPending, Asleep, Waking). -/
inductive ProcessState where
  | stopped | starting | ready | sleepPending | asleep | waking | stopping | shutdown
deriving DecidableEq

/-- The slice of the per-process configuration the TTL monitor can see:
the TTL itself and the sleep/wake configuration (which it ignores). -/
structure ProcessTTLConfig where
  unloadAfter : ℤ
  sleepEndpoint : String
  wakeEndpoint : String

/-- What one 1-second tick of the TTL monitor does to the process. -/
inductive TTLTickResult where
  | exitMonitor
  | keepWaiting
  | callStop
  | callSleep
deriving DecidableEq

/-- Modelled from the spec: the body of the `UnloadAfter` TTL goroutine of
`proxy/process.go` `start()` (the function itself is not among the
provided sources; it is quoted verbatim in the repository design document
and specified in §4.1d).  Each tick observes the current state, the
in-flight counter and the idle time since the last handled request:
a non-Ready state exits the monitor, in-flight requests skip the check,
and an idle time above `UnloadAfter` seconds calls `p.Stop()`.  `Sleep`
is never invoked, whatever the sleep/wake configuration holds. -/
def ttlTick (cfg : ProcessTTLConfig) (state : ProcessState) (inFlight : ℤ)
    (idleSeconds : ℚ) : TTLTickResult :=
  if state ≠ ProcessState.ready then TTLTickResult.exitMonitor
  else if inFlight ≠ 0 then TTLTickResult.keepWaiting
  else if (cfg.unloadAfter : ℚ) < idleSeconds then TTLTickResult.callStop
  else TTLTickResult.keepWaiting

/-- Modelled from the spec: the TTL goroutine is spawned only when
`p.config.UnloadAfter > 0`. -/
def ttlMonitorSpawned (cfg : ProcessTTLConfig) : Bool :=
  decide (0 < cfg.unloadAfter)

/-- The sleep/wake slice of `config.ModelConfig` (the remaining YAML
fields are decoded unchanged and play no part in this validation). -/
structure ModelConfigSW where
  sleepEndpoint : String
  sleepMethod : String
  wakeEndpoint : String
  wakeMethod : String
deriving DecidableEq

/-- `ModelConfig.UnmarshalYAML` lines 87–92: if one endpoint is set, both
must be set. -/
def checkEndpointPairing (m : ModelConfigSW) : Except String ModelConfigSW :=
  if m.sleepEndpoint ≠ "" ∧ m.wakeEndpoint = "" then
    Except.error "wakeEndpoint required when sleepEndpoint is configured"
  else if m.wakeEndpoint ≠ "" ∧ m.sleepEndpoint = "" then
    Except.error "sleepEndpoint required when wakeEndpoint is configured"
  else Except.ok m

/-- Lines 95–100: default methods to POST when an endpoint is configured
without a method. -/
def defaultMethods (m : ModelConfigSW) : ModelConfigSW :=
  { m with
    sleepMethod := if m.sleepEndpoint ≠ "" ∧ m.sleepMethod = "" then "POST" else m.sleepMethod,
    wakeMethod := if m.wakeEndpoint ≠ "" ∧ m.wakeMethod = "" then "POST" else m.wakeMethod }

/-- Membership in the `validMethods` map (after `strings.ToUpper`). -/
def isValidHTTPMethod (s : String) : Bool :=
  s.toUpper = "GET" || s.toUpper = "POST" || s.toUpper = "PUT" || s.toUpper = "PATCH"

/-- Lines 103–109: reject non-empty methods outside the valid set. -/
def checkMethods (m : ModelConfigSW) : Except String ModelConfigSW :=
  if m.sleepMethod ≠ "" ∧ ¬ (isValidHTTPMethod m.sleepMethod = true) then
    Except.error ("invalid sleepMethod: " ++ m.sleepMethod ++ " (must be GET, POST, PUT, or PATCH)")
  else if m.wakeMethod ≠ "" ∧ ¬ (isValidHTTPMethod m.wakeMethod = true) then
    Except.error ("invalid wakeMethod: " ++ m.wakeMethod ++ " (must be GET, POST, PUT, or PATCH)")
  else Except.ok m

/-- Lines 112–117: normalize non-empty methods to upper case. -/
def normalizeMethods (m : ModelConfigSW) : ModelConfigSW :=
  { m with
    sleepMethod := if m.sleepMethod ≠ "" then m.sleepMethod.toUpper else m.sleepMethod,
    wakeMethod := if m.wakeMethod ≠ "" then m.wakeMethod.toUpper else m.wakeMethod }

/-- The post-decode logic of `ModelConfig.UnmarshalYAML` (lines 86–119),
applied to the already-decoded sleep/wake fields: endpoint pairing check,
method defaulting, method validation, then normalization, with the Go
early returns as error short-circuits. -/
def unmarshalModelConfig (m : ModelConfigSW) : Except String ModelConfigSW :=
  match checkEndpointPairing m with
  | Except.error e => Except.error e
  | Except.ok m =>
    match checkMethods (defaultMethods m) with
    | Except.error e => Except.error e
    | Except.ok m => Except.ok (normalizeMethods m)

/-! ## Theorems -/

theorem assignIDs_length (start : ℕ) (l : List TokenMetrics) :
    (assignIDs start l).length = l.length := by
  induction l generalizing start with
  | nil => rfl
  | cons m rest ih => simp [assignIDs, ih]

theorem assignIDs_append (start : ℕ) (l₁ l₂ : List TokenMetrics) :
    assignIDs start (l₁ ++ l₂) = assignIDs start l₁ ++ assignIDs (start + l₁.length) l₂ := by
  induction l₁ generalizing start with
  | nil => simp [assignIDs]
  | cons m rest ih =>
      simp only [List.cons_append, assignIDs, List.append_eq, ih, List.length_cons]
      have h : start + 1 + rest.length = start + (rest.length + 1) := by omega
      rw [h]

theorem assignIDs_id_le (start : ℕ) (l : List TokenMetrics) :
    ∀ x ∈ assignIDs start l, start ≤ x.id := by
  induction l generalizing start with
  | nil => intro x hx; simp [assignIDs] at hx
  | cons m rest ih =>
      intro x hx
      simp only [assignIDs, List.mem_cons] at hx
      rcases hx with rfl | hx
      · exact Nat.le_refl _
      · exact Nat.le_of_succ_le (ih (start + 1) x hx)

theorem assignIDs_pairwise (start : ℕ) (l : List TokenMetrics) :
    (assignIDs start l).Pairwise (fun a b => a.id < b.id) := by
  induction l generalizing start with
  | nil => exact List.Pairwise.nil
  | cons m rest ih =>
      refine List.Pairwise.cons ?_ (ih (start + 1))
      intro y hy
      exact Nat.lt_of_succ_le (assignIDs_id_le (start + 1) rest y hy)

theorem runAdds_new_spec (max : ℕ) (ms : List TokenMetrics) :
    (runAdds (newMetricsMonitor max) ms).maxMetrics = max ∧
    (runAdds (newMetricsMonitor max) ms).nextID = ms.length ∧
    (runAdds (newMetricsMonitor max) ms).metrics =
      (assignIDs 0 ms).drop (ms.length - max) := by
  induction ms using List.reverseRecOn with
  | nil => simp [runAdds, newMetricsMonitor, assignIDs]
  | append_singleton ms x ih =>
      obtain ⟨hmax, hnext, hmet⟩ := ih
      have hstep : runAdds (newMetricsMonitor max) (ms ++ [x])
          = addMetrics (runAdds (newMetricsMonitor max) ms) x := by
        simp [runAdds, List.foldl_append]
      have hA : assignIDs 0 (ms ++ [x])
          = assignIDs 0 ms ++ [{ x with id := ms.length }] := by
        rw [assignIDs_append]
        simp [assignIDs]
      have hAlen : (assignIDs 0 ms).length = ms.length := assignIDs_length 0 ms
      rw [hstep]
      simp only [addMetrics, hmax, hnext, hmet]
      refine ⟨trivial, by simp, ?_⟩
      have hdropapp :
          (assignIDs 0 ms).drop (ms.length - max) ++ [{ x with id := ms.length }]
            = (assignIDs 0 ms ++ [{ x with id := ms.length }]).drop (ms.length - max) := by
        rw [List.drop_append_of_le_length (by omega)]
      have hlenL :
          ((assignIDs 0 ms).drop (ms.length - max) ++ [{ x with id := ms.length }]).length
            = ms.length - (ms.length - max) + 1 := by
        simp [List.length_drop, hAlen]
      rw [hA, hlenL, hdropapp]
      simp only [List.length_append, List.length_cons, List.length_nil]
      split_ifs with hc
      · rw [List.drop_drop]
        congr 1
        omega
      · congr 1
        omega

theorem scanLines_eq (m : String) (e : ℤ) :
    ∀ (L : List SSELine) (b : Bool),
    scanLines m e L b =
      match L.find? isMetricDataLine with
      | some l => Except.ok (metricOfLine m e l)
      | none =>
          if b || L.any isJsonDataLine then Except.ok (parseMetrics m e none none)
          else Except.error "no valid JSON data found in stream" := by
  intro L
  induction L with
  | nil => intro b; cases b <;> simp [scanLines]
  | cons l rest ih =>
      intro b
      cases l with
      | blank => exact ih b
      | other s => exact ih b
      | dataLine p =>
          cases p with
          | empty => exact ih b
          | done => exact ih b
          | invalid s => exact ih b
          | json v =>
              simp only [scanLines]
              by_cases h :
                  ((jget (some v) "usage").isSome || (jget (some v) "timings").isSome) = true
              · rw [if_pos h]
                have hm : isMetricDataLine (SSELine.dataLine (SSEPayload.json v)) = true := h
                rw [List.find?_cons_of_pos _ hm]
                rfl
              · rw [if_neg h]
                simp only [Bool.not_eq_true] at h
                have hm : isMetricDataLine (SSELine.dataLine (SSEPayload.json v)) = false := h
                have hj : isJsonDataLine (SSELine.dataLine (SSEPayload.json v)) = true := rfl
                rw [ih true, List.find?_cons_of_neg _ (by simp [hm]), List.any_cons, hj]
                cases hfind : rest.find? isMetricDataLine <;> simp

theorem find?_reverse_last {α : Type} (p : α → Bool) :
    ∀ (l : List α) (a : α), l.reverse.find? p = some a →
      ∃ pre suf, l = pre ++ a :: suf ∧ ∀ x ∈ suf, p x = false := by
  intro l
  induction l using List.reverseRecOn with
  | nil => intro a h; simp at h
  | append_singleton l x ih =>
      intro a h
      rw [List.reverse_append, List.reverse_singleton, List.singleton_append] at h
      by_cases hx : p x = true
      · rw [List.find?_cons_of_pos _ hx] at h
        obtain rfl : x = a := by injection h
        exact ⟨l, [], rfl, by intro y hy; simp at hy⟩
      · rw [List.find?_cons_of_neg _ (by simp [Bool.not_eq_true] at hx ⊢; exact hx)] at h
        obtain ⟨pre, suf, rfl, hsuf⟩ := ih a h
        refine ⟨pre, suf ++ [x], by simp, ?_⟩
        intro y hy
        rcases List.mem_append.mp hy with hy | hy
        · exact hsuf y hy
        · simp at hy
          subst hy
          simp [Bool.not_eq_true] at hx
          exact hx

/-- Claim C3: for a 2xx `text/event-stream` response, the recorded metric
comes from the last line carrying a `data:` payload that is not `[DONE]`,
is valid JSON and has a `usage` or `timings` member (the scan walks the
captured body backwards, so that line is the first hit of the reversed
line list, and every later line lacks the property); if no such payload
exists but some valid-JSON data line was seen, a metric with unknown
token counts is produced; if no valid-JSON data line exists at all, the
scan fails and nothing is recorded. -/
theorem streaming_last_data_line (m : String) (e : ℤ) (lines : List SSELine) :
    (processStreamingResponse m e lines =
      match lines.reverse.find? isMetricDataLine with
      | some l => Except.ok (metricOfLine m e l)
      | none =>
          if lines.any isJsonDataLine then Except.ok (parseMetrics m e none none)
          else Except.error "no valid JSON data found in stream") ∧
    (∀ l, lines.reverse.find? isMetricDataLine = some l →
      isMetricDataLine l = true ∧
      ∃ pre suf, lines = pre ++ l :: suf ∧ ∀ x ∈ suf, isMetricDataLine x = false) := by
  constructor
  · rw [processStreamingResponse, scanLines_eq]
    cases hfind : lines.reverse.find? isMetricDataLine <;>
      simp [List.any_reverse]
  · intro l hl
    refine ⟨List.find?_some hl, find?_reverse_last isMetricDataLine lines l hl⟩

/-- Claim C5: when `timings` is absent the recorded duration is the
elapsed time since request start, and tokens-per-second is computed as
`OutputTokens / (DurationMs / 1000)` exactly when both `OutputTokens` and
`DurationMs` are positive — when either is zero it stays `-1.0`, and the
division is guarded so it never divides by zero. -/
theorem parseMetrics_elapsed_duration (m : String) (e : ℤ) (usage : Option JValue) :
    (parseMetrics m e usage none).durationMs = e ∧
    (parseMetrics m e usage none).tokensPerSecond =
      (if 0 < (parseMetrics m e usage none).outputTokens ∧ 0 < e then
        ((parseMetrics m e usage none).outputTokens : ℚ) / ((e : ℚ) / 1000)
      else -1) ∧
    ((parseMetrics m e usage none).outputTokens = 0 ∨ e = 0 →
      (parseMetrics m e usage none).tokensPerSecond = -1) := by
  have hdur : (parseMetrics m e usage none).durationMs = e := by
    simp [parseMetrics]
  have htps : (parseMetrics m e usage none).tokensPerSecond =
      (if 0 < (parseMetrics m e usage none).outputTokens ∧ 0 < e then
        ((parseMetrics m e usage none).outputTokens : ℚ) / ((e : ℚ) / 1000)
      else -1) := by
    simp [parseMetrics]
  refine ⟨hdur, htps, ?_⟩
  intro h
  rw [htps, if_neg]
  rintro ⟨h1, h2⟩
  rcases h with h | h
  · rw [h] at h1; exact lt_irrefl 0 h1
  · rw [h] at h2; exact lt_irrefl 0 h2

/-- Witness for C5: `usage = {completion_tokens: 50}` and 2000 ms elapsed
give 25 tokens/s; with 0 ms elapsed the rate stays at the `-1` sentinel. -/
theorem parseMetrics_elapsed_duration_witness :
    (parseMetrics "m" 2000 (some (JValue.obj [("completion_tokens", JValue.num 50)]))
        none).tokensPerSecond = 25 ∧
    (parseMetrics "m" 0 (some (JValue.obj [("completion_tokens", JValue.num 50)]))
        none).tokensPerSecond = -1 := by
  constructor
  · have h := parseMetrics_elapsed_duration "m" 2000
      (some (JValue.obj [("completion_tokens", JValue.num 50)]))
    rw [h.2.1]
    norm_num [parseMetrics, jget, jlookup, goInt, goTrunc]
  · exact (parseMetrics_elapsed_duration "m" 0
      (some (JValue.obj [("completion_tokens", JValue.num 50)]))).2.2 (Or.inr rfl)

/-- Counterexample to claim C4 as stated: when the `timings` object
itself carries `predicted_per_second = -1.0` together with a positive
predicted count and duration, the recorded `TokensPerSecond` is not taken
from `predicted_per_second` — the computed-rate fallback fires on the
`-1.0` sentinel and overwrites it. -/
def cexTimings : JValue :=
  JValue.obj [("predicted_n", JValue.num 5), ("predicted_per_second", JValue.num (-1)),
    ("prompt_ms", JValue.num 1000), ("predicted_ms", JValue.num 0)]

theorem timings_tps_not_verbatim :
    (parseMetrics "m" 0 none (some cexTimings)).tokensPerSecond ≠
      goFloat (jget (some cexTimings) "predicted_per_second") := by
  have h1 : (parseMetrics "m" 0 none (some cexTimings)).tokensPerSecond = 5 := by
    simp [parseMetrics, cexTimings, jget, jlookup, goFloat, goInt, goTrunc]
  have h2 : goFloat (jget (some cexTimings) "predicted_per_second") = -1 := rfl
  rw [h1, h2]
  norm_num

/-- Claim C4 (amended): whenever a `timings` object is present, the
recorded metric takes `InputTokens` from `prompt_n`, `OutputTokens` from
`predicted_n`, `PromptPerSecond` from `prompt_per_second`, `DurationMs`
from `prompt_ms + predicted_ms` (truncated to an integer) and, when
`cache_n` is present, `CachedTokens` from `cache_n`, overriding any
values taken from `usage`; `TokensPerSecond` is taken from
`predicted_per_second` unless that value equals `-1.0` while
`OutputTokens` and `DurationMs` are positive, in which case it is
recomputed as `OutputTokens / (DurationMs / 1000)`. -/
theorem parseMetrics_timings_override (m : String) (e : ℤ) (usage : Option JValue)
    (t : JValue) :
    (parseMetrics m e usage (some t)).inputTokens = goInt (jget (some t) "prompt_n") ∧
    (parseMetrics m e usage (some t)).outputTokens = goInt (jget (some t) "predicted_n") ∧
    (parseMetrics m e usage (some t)).promptPerSecond =
      goFloat (jget (some t) "prompt_per_second") ∧
    (parseMetrics m e usage (some t)).durationMs =
      goTrunc (goFloat (jget (some t) "prompt_ms") + goFloat (jget (some t) "predicted_ms")) ∧
    (parseMetrics m e usage (some t)).tokensPerSecond =
      (if goFloat (jget (some t) "predicted_per_second") = -1 ∧
          0 < (parseMetrics m e usage (some t)).outputTokens ∧
          0 < (parseMetrics m e usage (some t)).durationMs then
        ((parseMetrics m e usage (some t)).outputTokens : ℚ) /
          (((parseMetrics m e usage (some t)).durationMs : ℚ) / 1000)
      else goFloat (jget (some t) "predicted_per_second")) ∧
    (∀ c, jget (some t) "cache_n" = some c →
      (parseMetrics m e usage (some t)).cachedTokens = goInt (some c)) := by
  refine ⟨by simp [parseMetrics], by simp [parseMetrics], by simp [parseMetrics],
    by simp [parseMetrics], by simp [parseMetrics], ?_⟩
  intro c hc
  simp [parseMetrics, hc]

/-- Witness for C4 (amended): the llama-server style timings object of
the repository's tests, with `cache_n` present, overrides the usage
counts. -/
theorem parseMetrics_timings_override_witness :
    (parseMetrics "m" 777
        (some (JValue.obj [("prompt_tokens", JValue.num 7)]))
        (some (JValue.obj [("prompt_n", JValue.num 100), ("predicted_n", JValue.num 50),
          ("prompt_ms", JValue.num 500), ("predicted_ms", JValue.num 1500),
          ("cache_n", JValue.num 20)]))).inputTokens = 100 ∧
    (parseMetrics "m" 777
        (some (JValue.obj [("prompt_tokens", JValue.num 7)]))
        (some (JValue.obj [("prompt_n", JValue.num 100), ("predicted_n", JValue.num 50),
          ("prompt_ms", JValue.num 500), ("predicted_ms", JValue.num 1500),
          ("cache_n", JValue.num 20)]))).cachedTokens = 20 := by
  have h := parseMetrics_timings_override "m" 777
    (some (JValue.obj [("prompt_tokens", JValue.num 7)]))
    (JValue.obj [("prompt_n", JValue.num 100), ("predicted_n", JValue.num 50),
      ("prompt_ms", JValue.num 500), ("predicted_ms", JValue.num 1500),
      ("cache_n", JValue.num 20)])
  refine ⟨?_, ?_⟩
  · rw [h.1]; decide
  · rw [h.2.2.2.2.2 (JValue.num 20) (by rfl)]; decide

/-- Counterexample to claim C6 as stated: with `timings` present but
empty, the `prompt_per_second` field is missing from both `usage` and
`timings`, yet the recorded `PromptPerSecond` is `0`, not the `-1.0`
sentinel (a present `timings` object is read with gjson's zero defaults). -/
theorem missing_field_not_sentinel :
    (parseMetrics "m" 5 none (some (JValue.obj []))).promptPerSecond ≠ -1 := by
  decide

/-- Claim C6 (amended): sentinel defaults apply per field as follows.
When `timings` is absent: `PromptPerSecond` is always `-1.0`;
`CachedTokens` is `-1` when usage's `cache_read_input_tokens` is missing;
`InputTokens` is `0` when `prompt_tokens` and `input_tokens` are missing;
when `completion_tokens` and `output_tokens` are missing, `OutputTokens`
is `0` and `TokensPerSecond` stays `-1.0` (the computed fallback needs a
positive output count).  When a `timings` object is present, its missing
numeric fields are read as `0` instead of the sentinels (`PromptPerSecond`
and `TokensPerSecond` become `0.0`), and `CachedTokens` is `-1` exactly
when `cache_n` and `cache_read_input_tokens` are both missing. -/
theorem parseMetrics_sentinel_defaults (m : String) (e : ℤ) (usage : Option JValue) :
    (parseMetrics m e usage none).promptPerSecond = -1 ∧
    (jget usage "cache_read_input_tokens" = none →
      (parseMetrics m e usage none).cachedTokens = -1) ∧
    (jget usage "prompt_tokens" = none → jget usage "input_tokens" = none →
      (parseMetrics m e usage none).inputTokens = 0) ∧
    (jget usage "completion_tokens" = none → jget usage "output_tokens" = none →
      (parseMetrics m e usage none).outputTokens = 0 ∧
      (parseMetrics m e usage none).tokensPerSecond = -1) ∧
    (∀ t : JValue, jget (some t) "prompt_per_second" = none →
      (parseMetrics m e usage (some t)).promptPerSecond = 0) ∧
    (∀ t : JValue, jget (some t) "predicted_per_second" = none →
      (parseMetrics m e usage (some t)).tokensPerSecond = 0) ∧
    (∀ t : JValue, jget (some t) "cache_n" = none →
      jget usage "cache_read_input_tokens" = none →
      (parseMetrics m e usage (some t)).cachedTokens = -1) := by
  refine ⟨by simp [parseMetrics], ?_, ?_, ?_, ?_, ?_, ?_⟩
  · intro h; simp [parseMetrics, h]
  · intro h1 h2; simp [parseMetrics, h1, h2]
  · intro h1 h2
    constructor
    · simp [parseMetrics, h1, h2]
    · simp [parseMetrics, h1, h2]
  · intro t h; simp [parseMetrics, h, goFloat]
  · intro t h; simp [parseMetrics, h, goFloat]
  · intro t h1 h2; simp [parseMetrics, h1, h2]

/-- Witness for C6 (amended): a body with neither `usage` nor `timings`
records all-unknown sentinels, and an empty `timings` object records zero
rates. -/
theorem parseMetrics_sentinel_defaults_witness :
    (parseMetrics "m" 0 none none).cachedTokens = -1 ∧
    (parseMetrics "m" 0 none none).promptPerSecond = -1 ∧
    (parseMetrics "m" 0 none none).tokensPerSecond = -1 ∧
    (parseMetrics "m" 0 none none).inputTokens = 0 ∧
    (parseMetrics "m" 0 none none).outputTokens = 0 ∧
    (parseMetrics "m" 0 none (some (JValue.obj []))).promptPerSecond = 0 := by
  have h := parseMetrics_sentinel_defaults "m" 0 none
  refine ⟨h.2.1 rfl, h.1, (h.2.2.2.1 rfl rfl).2, h.2.2.1 rfl rfl,
    (h.2.2.2.1 rfl rfl).1, h.2.2.2.2.1 (JValue.obj []) rfl⟩

/-- A concrete SSE body: one content frame, one usage-bearing frame, a
`[DONE]` marker. -/
def wlines : List SSELine :=
  [SSELine.dataLine (SSEPayload.json (JValue.obj [("choices", JValue.arr [])])),
   SSELine.blank,
   SSELine.dataLine (SSEPayload.json
     (JValue.obj [("usage", JValue.obj [("prompt_tokens", JValue.num 10)])])),
   SSELine.blank,
   SSELine.dataLine SSEPayload.done]

/-- Witness for C3: on `wlines` the scan lands on the usage-bearing frame
even though a `[DONE]` marker follows it, and every later line lacks
usage/timings. -/
theorem streaming_last_data_line_witness :
    processStreamingResponse "m" 5 wlines =
      Except.ok (metricOfLine "m" 5 (SSELine.dataLine (SSEPayload.json
        (JValue.obj [("usage", JValue.obj [("prompt_tokens", JValue.num 10)])])))) ∧
    ∃ pre suf,
      wlines = pre ++ (SSELine.dataLine (SSEPayload.json
        (JValue.obj [("usage", JValue.obj [("prompt_tokens", JValue.num 10)])]))) :: suf ∧
      ∀ x ∈ suf, isMetricDataLine x = false := by
  have h := streaming_last_data_line "m" 5 wlines
  have hfind : wlines.reverse.find? isMetricDataLine =
      some (SSELine.dataLine (SSEPayload.json
        (JValue.obj [("usage", JValue.obj [("prompt_tokens", JValue.num 10)])]))) := rfl
  constructor
  · rw [h.1, hfind]
  · exact (h.2 _ hfind).2

/-- Claim C2: `wrapHandler` records a metric only for a completed `next`
call whose recorded status is 2xx (the code accepts exactly 200) with a
non-empty captured body; every completed response with a non-2xx status,
and every completed response with an empty body, records nothing, returns
nil and logs a warning instead. -/
theorem wrapHandler_records_only_ok (m : String) (e : ℤ) (ne : Option String)
    (resp : UpstreamResponse) :
    ((wrapHandler m e ne resp).recorded.isSome = true →
      ne = none ∧ 200 ≤ resp.status ∧ resp.status < 300 ∧ resp.body.isEmpty = false) ∧
    (ne = none → ¬(200 ≤ resp.status ∧ resp.status < 300) →
      (wrapHandler m e ne resp).recorded = none ∧ (wrapHandler m e ne resp).err = none ∧
      (wrapHandler m e ne resp).warned = true) ∧
    (ne = none → resp.body.isEmpty = true →
      (wrapHandler m e ne resp).recorded = none ∧ (wrapHandler m e ne resp).err = none ∧
      (wrapHandler m e ne resp).warned = true) := by
  cases ne with
  | some s =>
      refine ⟨?_, ?_, ?_⟩
      · intro h; simp [wrapHandler] at h
      · intro h; exact absurd h (by simp)
      · intro h; exact absurd h (by simp)
  | none =>
      by_cases hst : resp.status = 200
      · by_cases hemp : resp.body.isEmpty = true
        · refine ⟨?_, ?_, ?_⟩
          · intro h; simp [wrapHandler, hst, hemp] at h
          · intro _ h2; exact absurd ⟨by omega, by omega⟩ h2
          · intro _ _; simp [wrapHandler, hst, hemp]
        · refine ⟨?_, ?_, ?_⟩
          · intro _
            exact ⟨rfl, by omega, by omega,
              by revert hemp; cases resp.body.isEmpty <;> simp⟩
          · intro _ h2; exact absurd ⟨by omega, by omega⟩ h2
          · intro _ h3; exact absurd h3 hemp
      · refine ⟨?_, ?_, ?_⟩
        · intro h; simp [wrapHandler, hst] at h
        · intro _ _; simp [wrapHandler, hst]
        · intro _ _; simp [wrapHandler, hst]

/-- Witness for C2: a completed 404 with a non-empty body records nothing,
returns nil, and warns. -/
theorem wrapHandler_records_only_ok_witness :
    (wrapHandler "m" 5 none
      { status := 404, contentType := "application/json",
        body := { isEmpty := false, lines := [], wholeJson := some (JValue.obj []) } }).recorded
      = none ∧
    (wrapHandler "m" 5 none
      { status := 404, contentType := "application/json",
        body := { isEmpty := false, lines := [], wholeJson := some (JValue.obj []) } }).warned
      = true := by
  have h := (wrapHandler_records_only_ok "m" 5 none
    { status := 404, contentType := "application/json",
      body := { isEmpty := false, lines := [], wholeJson := some (JValue.obj []) } }).2.1
    rfl (by decide)
  exact ⟨h.1, h.2.2⟩

/-- Claim C7: when the wrapped handler fails, `wrapHandler` returns
exactly that error and records no metric (and logs nothing); when the
wrapped handler returns nil, `wrapHandler` always returns nil — whatever
the captured body holds, metric-parsing failures never surface. -/
theorem wrapHandler_error_propagation (m : String) (e : ℤ) (ne : Option String)
    (resp : UpstreamResponse) :
    (∀ s, ne = some s → wrapHandler m e ne resp =
      { err := some s, recorded := none, warned := false }) ∧
    (ne = none → (wrapHandler m e ne resp).err = none) := by
  constructor
  · intro s hs; subst hs; rfl
  · intro h
    subst h
    simp only [wrapHandler]
    split_ifs
    · rfl
    · rfl
    · cases hps : processStreamingResponse m e resp.body.lines <;> rfl
    · cases hj : resp.body.wholeJson <;> rfl

/-- Witness for C7: a failing handler propagates its error verbatim; a
succeeding handler with an unparseable body still returns nil. -/
theorem wrapHandler_error_propagation_witness :
    wrapHandler "m" 5 (some "upstream exploded")
      { status := 200, contentType := "application/json",
        body := { isEmpty := false, lines := [], wholeJson := none } }
      = { err := some "upstream exploded", recorded := none, warned := false } ∧
    (wrapHandler "m" 5 none
      { status := 200, contentType := "application/json",
        body := { isEmpty := false, lines := [], wholeJson := none } }).err = none := by
  constructor
  · exact (wrapHandler_error_propagation "m" 5 (some "upstream exploded")
      { status := 200, contentType := "application/json",
        body := { isEmpty := false, lines := [], wholeJson := none } }).1
      "upstream exploded" rfl
  · exact (wrapHandler_error_propagation "m" 5 none
      { status := 200, contentType := "application/json",
        body := { isEmpty := false, lines := [], wholeJson := none } }).2 rfl

/-- Counterexample to claim C8 as stated: the capture buffer has no size
cap at all — `responseBodyCopier` tees into a plain `bytes.Buffer`, so for
every candidate bound some single write produces a larger capture. -/
theorem capture_not_capped :
    ¬ ∃ cap : ℕ, ∀ b : List Char,
      ((copierWrite newBodyCopier b).captured).length ≤ cap := by
  rintro ⟨cap, h⟩
  have hb := h (List.replicate (cap + 1) 'a')
  simp [copierWrite, newBodyCopier] at hb

/-- Claim C8 (amended): every byte written through the tee writer is
forwarded unchanged to the underlying `ResponseWriter`, and the very same
bytes are captured in full for metrics — the capture is not capped, and
overflow is never dropped from either stream. -/
theorem copier_tee_full_capture (bs : List (List Char)) :
    (copierWrites newBodyCopier bs).forwarded = bs.flatten ∧
    (copierWrites newBodyCopier bs).captured = bs.flatten := by
  have general : ∀ (bs : List (List Char)) (w : BodyCopier),
      (copierWrites w bs).forwarded = w.forwarded ++ bs.flatten ∧
      (copierWrites w bs).captured = w.captured ++ bs.flatten := by
    intro bs
    induction bs with
    | nil => intro w; simp [copierWrites]
    | cons b rest ih =>
        intro w
        have hstep : copierWrites w (b :: rest) = copierWrites (copierWrite w b) rest := rfl
        obtain ⟨h1, h2⟩ := ih (copierWrite w b)
        rw [hstep, h1, h2]
        constructor <;> simp [copierWrite]
  have h := general bs newBodyCopier
  simpa [newBodyCopier] using h

/-- Claim C9: on a TTL-monitor tick where the process is Ready with zero
in-flight requests and the idle time exceeds `UnloadAfter`, the monitor
calls `Stop` — and never `Sleep` — whatever sleep/wake endpoints the
configuration carries. -/
theorem ttl_expiry_stops (cfg : ProcessTTLConfig) (state : ProcessState) (inFlight : ℤ)
    (idleSeconds : ℚ) (h1 : state = ProcessState.ready) (h2 : inFlight = 0)
    (h3 : (cfg.unloadAfter : ℚ) < idleSeconds) :
    ttlTick cfg state inFlight idleSeconds = TTLTickResult.callStop ∧
    ttlTick cfg state inFlight idleSeconds ≠ TTLTickResult.callSleep := by
  subst h1
  subst h2
  have hstop : ttlTick cfg ProcessState.ready 0 idleSeconds = TTLTickResult.callStop := by
    simp [ttlTick, h3]
  refine ⟨hstop, ?_⟩
  rw [hstop]
  intro hcontra
  exact TTLTickResult.noConfusion hcontra

/-- Witness for C9: a sleep-configured process whose 60 s TTL has been
idle for 61 s is stopped, not slept. -/
theorem ttl_expiry_stops_witness :
    ttlTick { unloadAfter := 60, sleepEndpoint := "/sleep", wakeEndpoint := "/wake" }
        ProcessState.ready 0 61 = TTLTickResult.callStop ∧
    ttlTick { unloadAfter := 60, sleepEndpoint := "/sleep", wakeEndpoint := "/wake" }
        ProcessState.ready 0 61 ≠ TTLTickResult.callSleep := by
  exact ttl_expiry_stops
    { unloadAfter := 60, sleepEndpoint := "/sleep", wakeEndpoint := "/wake" }
    ProcessState.ready 0 61 rfl rfl (by norm_num)

/-- Claim C10: `ModelConfig` unmarshalling fails whenever exactly one of
`sleepEndpoint`/`wakeEndpoint` is configured non-empty (with the matching
error message); when both are set or neither is, the endpoint-pairing
validation passes the config through unchanged. -/
theorem unmarshal_endpoint_pairing (m : ModelConfigSW) :
    (m.sleepEndpoint ≠ "" → m.wakeEndpoint = "" →
      unmarshalModelConfig m =
        Except.error "wakeEndpoint required when sleepEndpoint is configured") ∧
    (m.wakeEndpoint ≠ "" → m.sleepEndpoint = "" →
      unmarshalModelConfig m =
        Except.error "sleepEndpoint required when wakeEndpoint is configured") ∧
    ((m.sleepEndpoint = "" ↔ m.wakeEndpoint = "") →
      checkEndpointPairing m = Except.ok m) := by
  refine ⟨?_, ?_, ?_⟩
  · intro h1 h2
    have hch : checkEndpointPairing m =
        Except.error "wakeEndpoint required when sleepEndpoint is configured" := by
      simp [checkEndpointPairing, h1, h2]
    simp [unmarshalModelConfig, hch]
  · intro h1 h2
    have hch : checkEndpointPairing m =
        Except.error "sleepEndpoint required when wakeEndpoint is configured" := by
      simp [checkEndpointPairing, h1, h2]
    simp [unmarshalModelConfig, hch]
  · intro h
    by_cases hs : m.sleepEndpoint = ""
    · have hw : m.wakeEndpoint = "" := h.mp hs
      simp [checkEndpointPairing, hs, hw]
    · have hw : ¬ m.wakeEndpoint = "" := fun hw => hs (h.mpr hw)
      simp [checkEndpointPairing, hs, hw]

/-- A config with only a sleep endpoint. -/
def swOnlySleep : ModelConfigSW :=
  { sleepEndpoint := "/sleep", sleepMethod := "", wakeEndpoint := "", wakeMethod := "" }

/-- A config with only a wake endpoint. -/
def swOnlyWake : ModelConfigSW :=
  { sleepEndpoint := "", sleepMethod := "", wakeEndpoint := "/wake", wakeMethod := "" }

/-- A config with both endpoints. -/
def swBoth : ModelConfigSW :=
  { sleepEndpoint := "/sleep", sleepMethod := "POST", wakeEndpoint := "/wake",
    wakeMethod := "GET" }

/-- Witness for C10: a config with only a sleep endpoint and one with only
a wake endpoint are rejected; a config with both passes the pairing
validation. -/
theorem unmarshal_endpoint_pairing_witness :
    unmarshalModelConfig swOnlySleep
      = Except.error "wakeEndpoint required when sleepEndpoint is configured" ∧
    unmarshalModelConfig swOnlyWake
      = Except.error "sleepEndpoint required when wakeEndpoint is configured" ∧
    checkEndpointPairing swBoth = Except.ok swBoth := by
  refine ⟨?_, ?_, ?_⟩
  · exact (unmarshal_endpoint_pairing swOnlySleep).1 (by decide) rfl
  · exact (unmarshal_endpoint_pairing swOnlyWake).2.1 (by decide) rfl
  · exact (unmarshal_endpoint_pairing swBoth).2.2 (by decide)

/-- Claim C1: for every sequence of `addMetrics` calls on a fresh
`metricsMonitor` with capacity `max`, the retained records are exactly
the most recently inserted suffix (records are assigned IDs `0,1,2,…` in
insertion order and the oldest are evicted first), the stored count never
exceeds `max`, and the stored IDs are strictly increasing. -/
theorem addMetrics_ring_invariant (max : ℕ) (ms : List TokenMetrics) :
    (runAdds (newMetricsMonitor max) ms).metrics
      = (assignIDs 0 ms).drop (ms.length - max) ∧
    (runAdds (newMetricsMonitor max) ms).metrics.length = min ms.length max ∧
    (runAdds (newMetricsMonitor max) ms).metrics.length ≤ max ∧
    (runAdds (newMetricsMonitor max) ms).metrics.Pairwise (fun a b => a.id < b.id) := by
  obtain ⟨-, -, hmet⟩ := runAdds_new_spec max ms
  have hAlen : (assignIDs 0 ms).length = ms.length := assignIDs_length 0 ms
  have hlen : (runAdds (newMetricsMonitor max) ms).metrics.length = min ms.length max := by
    rw [hmet, List.length_drop, hAlen]; omega
  refine ⟨hmet, hlen, by omega, ?_⟩
  rw [hmet]
  exact List.Pairwise.sublist (List.drop_sublist _ _) (assignIDs_pairwise 0 ms)
